import Mathlib

/-!
Shallow embedding of `src/macos_shim.c`, a thin shim over the macOS
CoreGraphics / CoreFoundation event-tap facility.

The shim holds no state of its own: every function forwards into the OS
framework.  We model the framework by an oracle structure `OS` supplying
the return value of each framework entry point, and each embedded shim
function returns its C result together with the exact sequence of
framework calls it performs (an `OSCall` list) and the lines it prints.
`CGFloat` and `CFTimeInterval` values (C `double`s) are never computed
on by the shim, only passed through unchanged, so they are modelled by
an opaque integer carrier.
-/

namespace MacosShim

/-- Handle standing for a `CFMachPortRef` event tap. -/
abbrev Tap := Nat

/-- Handle standing for a `CGEventRef`. -/
abbrev Event := Nat

/-- Handle standing for a `CFRunLoopSourceRef`. -/
abbrev RunLoopSource := Nat

/-- Handle standing for a `CFRunLoopRef`. -/
abbrev RunLoop := Nat

/-- Opaque `EventTapCallback` function pointer. -/
abbrev Callback := Nat

/-- Opaque `void*` user-data pointer. -/
abbrev UserData := Nat

/-- Opaque carrier for `CGFloat` (a C `double` the shim never computes on). -/
abbrev CGFloat := Int

/-- Opaque carrier for `CFTimeInterval` (a C `double` the shim never computes on). -/
abbrev CFTimeInterval := Int

/-- A `CGPoint`: a pair of `CGFloat` coordinates. -/
structure CGPoint where
  x : CGFloat
  y : CGFloat
  deriving DecidableEq, Repr

/-- `CGEventType` value `kCGEventLeftMouseDown` (CGEventTypes.h). -/
def kCGEventLeftMouseDown : Nat := 1

/-- `CGEventType` value `kCGEventLeftMouseUp` (CGEventTypes.h). -/
def kCGEventLeftMouseUp : Nat := 2

/-- `CGEventType` value `kCGEventRightMouseDown` (CGEventTypes.h). -/
def kCGEventRightMouseDown : Nat := 3

/-- `CGEventType` value `kCGEventRightMouseUp` (CGEventTypes.h). -/
def kCGEventRightMouseUp : Nat := 4

/-- `CGEventType` value `kCGEventMouseMoved` (CGEventTypes.h). -/
def kCGEventMouseMoved : Nat := 5

/-- `CGEventType` value `kCGEventKeyDown` (CGEventTypes.h). -/
def kCGEventKeyDown : Nat := 10

/-- `CGEventType` value `kCGEventKeyUp` (CGEventTypes.h). -/
def kCGEventKeyUp : Nat := 11

/-- `CGEventType` value `kCGEventScrollWheel` (CGEventTypes.h). -/
def kCGEventScrollWheel : Nat := 22

/-- `CGEventTapLocation` value `kCGSessionEventTap` (CGEventTypes.h). -/
def kCGSessionEventTap : Nat := 1

/-- `CGEventTapPlacement` value `kCGHeadInsertEventTap` (CGEventTypes.h). -/
def kCGHeadInsertEventTap : Nat := 0

/-- `CGEventTapOptions` value `kCGEventTapOptionDefault` (CGEventTypes.h). -/
def kCGEventTapOptionDefault : Nat := 0

/-- `CGEventField` value `kCGKeyboardEventKeycode` (CGEventTypes.h). -/
def kCGKeyboardEventKeycode : Nat := 9

/-- The single CoreFoundation run-loop mode the shim ever names. -/
inductive CFRunLoopMode
  | defaultMode
  deriving DecidableEq, Repr

/-- One call from the shim into the OS framework, with the exact arguments
passed. -/
inductive OSCall
  | cgEventTapCreate (tapLocation place options : Nat) (eventsOfInterest : Nat)
      (callback : Callback) (userInfo : UserData)
  | cgEventTapEnable (tap : Tap) (enable : Bool)
  | cfMachPortCreateRunLoopSource (tap : Tap) (order : Int)
  | cfRunLoopGetCurrent
  | cfRunLoopAddSource (rl : RunLoop) (source : RunLoopSource) (mode : CFRunLoopMode)
  | cfRelease (handle : Nat)
  | cfRunLoopRunInMode (mode : CFRunLoopMode) (seconds : CFTimeInterval)
      (returnAfterSourceHandled : Bool)
  | cgEventGetIntegerValueField (event : Event) (field : Nat)
  | cgEventCreate (source : Option Nat)
  | cgEventGetLocation (event : Event)
  deriving DecidableEq, Repr

/-- A line printed by the shim via `printf`, kept structurally. -/
inductive PrintedLine
  | failedToCreateEventTap
  | eventType (t : Int)
  | keyCode (k : Int)
  | mouseLocation (x y : CGFloat)
  deriving DecidableEq, Repr

/-- Oracle giving the return value of each OS framework entry point the shim
calls.  (`CGEventCreate` is only ever called with a NULL source, and
`CFMachPortCreateRunLoopSource` only with the default allocator and order 0,
so those fixed arguments are not parameters of the oracle.) -/
structure OS where
  cgEventTapCreate : Nat → Nat → Nat → Nat → Callback → UserData → Option Tap
  cfMachPortCreateRunLoopSource : Tap → Option RunLoopSource
  cfRunLoopGetCurrent : RunLoop
  cfRunLoopRunInMode : CFRunLoopMode → CFTimeInterval → Bool → Int
  cgEventGetIntegerValueField : Event → Nat → Int
  cgEventCreate : Option Event
  cgEventGetLocation : Event → CGPoint

/-- The C cast `(int)` applied to a `uint32_t` value. -/
def intOfUInt32 (n : Nat) : Int :=
  if n % 2 ^ 32 < 2 ^ 31 then Int.ofNat (n % 2 ^ 32) else Int.ofNat (n % 2 ^ 32) - 2 ^ 32

/-- The `eventMask` built at the top of `InitializeEventTap`
(`src/macos_shim.c` lines 14-17). -/
def eventMask : Nat :=
  (1 <<< kCGEventKeyDown) ||| (1 <<< kCGEventKeyUp) |||
  (1 <<< kCGEventLeftMouseDown) ||| (1 <<< kCGEventLeftMouseUp) |||
  (1 <<< kCGEventRightMouseDown) ||| (1 <<< kCGEventRightMouseUp) |||
  (1 <<< kCGEventMouseMoved) ||| (1 <<< kCGEventScrollWheel)

/-- `InitializeEventTap` (`src/macos_shim.c` lines 12-35): calls
`CGEventTapCreate` with the fixed tap parameters and `eventMask`, prints a
failure line and returns NULL when the OS returns a null tap, and otherwise
returns the tap handle.  Result: (returned pointer, OS-call trace, printed
lines). -/
def InitializeEventTap (os : OS) (callback : Callback) (userData : UserData) :
    Option Tap × List OSCall × List PrintedLine :=
  match os.cgEventTapCreate kCGSessionEventTap kCGHeadInsertEventTap
      kCGEventTapOptionDefault eventMask callback userData with
  | none =>
      (none,
       [OSCall.cgEventTapCreate kCGSessionEventTap kCGHeadInsertEventTap
          kCGEventTapOptionDefault eventMask callback userData],
       [PrintedLine.failedToCreateEventTap])
  | some eventTap =>
      (some eventTap,
       [OSCall.cgEventTapCreate kCGSessionEventTap kCGHeadInsertEventTap
          kCGEventTapOptionDefault eventMask callback userData],
       [])

/-- `EnableEventTap` (`src/macos_shim.c` lines 38-42): calls
`CGEventTapEnable(tap, enable)` when `tap` is non-NULL, and does nothing
otherwise.  Result: the OS-call trace. -/
def EnableEventTap (tap : Option Tap) (enable : Bool) : List OSCall :=
  match tap with
  | some t => [OSCall.cgEventTapEnable t enable]
  | none => []

/-- `AddEventTapToCurrentRunLoop` (`src/macos_shim.c` lines 45-61): for a
non-NULL tap, creates a run-loop source from the tap, and when that succeeds
adds it to the current run loop in default mode and releases it.  Result: the
OS-call trace. -/
def AddEventTapToCurrentRunLoop (os : OS) (tap : Option Tap) : List OSCall :=
  match tap with
  | none => []
  | some t =>
    match os.cfMachPortCreateRunLoopSource t with
    | none => [OSCall.cfMachPortCreateRunLoopSource t 0]
    | some runLoopSource =>
        [OSCall.cfMachPortCreateRunLoopSource t 0,
         OSCall.cfRunLoopGetCurrent,
         OSCall.cfRunLoopAddSource os.cfRunLoopGetCurrent runLoopSource
           CFRunLoopMode.defaultMode,
         OSCall.cfRelease runLoopSource]

/-- `CleanupEventTap` (`src/macos_shim.c` lines 64-70): releases the tap when
it is non-NULL and does nothing otherwise.  Result: the OS-call trace. -/
def CleanupEventTap (tap : Option Tap) : List OSCall :=
  match tap with
  | some t => [OSCall.cfRelease t]
  | none => []

/-- `RunCurrentRunLoopWithTimeout` (`src/macos_shim.c` lines 73-75): a single
call `CFRunLoopRunInMode(kCFRunLoopDefaultMode, seconds, true)` whose result
is returned unchanged.  Result: (return value, OS-call trace). -/
def RunCurrentRunLoopWithTimeout (os : OS) (seconds : CFTimeInterval) :
    Int × List OSCall :=
  (os.cfRunLoopRunInMode CFRunLoopMode.defaultMode seconds true,
   [OSCall.cfRunLoopRunInMode CFRunLoopMode.defaultMode seconds true])

/-- `GetKeyCodeFromEvent` (`src/macos_shim.c` lines 78-83): for a non-NULL
event, reads the `kCGKeyboardEventKeycode` integer field and casts it to
`uint16_t` (reduction modulo 2^16); for a NULL event returns 0.  Result:
(return value, OS-call trace). -/
def GetKeyCodeFromEvent (os : OS) (event : Option Event) : Nat × List OSCall :=
  match event with
  | some ev =>
      (((os.cgEventGetIntegerValueField ev kCGKeyboardEventKeycode) % 2 ^ 16).toNat,
       [OSCall.cgEventGetIntegerValueField ev kCGKeyboardEventKeycode])
  | none => (0, [])

/-- `GetCurrentMousePos` (`src/macos_shim.c` lines 86-96): for a NULL pointer
returns -1; otherwise creates an event with `CGEventCreate(NULL)`, and on
success writes its location through the pointer, releases the event and
returns 0, while on failure returns -1.  The `Option CGPoint` argument is the
memory the pointer refers to (`none` for a NULL pointer); the middle result
component is that memory after the call. -/
def GetCurrentMousePos (os : OS) (point : Option CGPoint) :
    Int × Option CGPoint × List OSCall :=
  match point with
  | none => (-1, none, [])
  | some p =>
    match os.cgEventCreate with
    | some event =>
        (0, some (os.cgEventGetLocation event),
         [OSCall.cgEventCreate none, OSCall.cgEventGetLocation event,
          OSCall.cfRelease event])
    | none => (-1, some p, [OSCall.cgEventCreate none])

/-- `PrintEventInfo` (`src/macos_shim.c` lines 99-111): always prints the
event type; for key-down/key-up events also prints the key code (the field
value cast to the 16-bit `CGKeyCode`); for mouse-moved and left/right mouse
button down/up events also prints the event location.  Result: the printed
lines. -/
def PrintEventInfo (os : OS) (type : Nat) (event : Event) : List PrintedLine :=
  [PrintedLine.eventType (intOfUInt32 type)] ++
  (if type = kCGEventKeyDown ∨ type = kCGEventKeyUp then
     [PrintedLine.keyCode
        ((os.cgEventGetIntegerValueField event kCGKeyboardEventKeycode) % 2 ^ 16)]
   else if type = kCGEventMouseMoved ∨
        type = kCGEventLeftMouseDown ∨ type = kCGEventLeftMouseUp ∨
        type = kCGEventRightMouseDown ∨ type = kCGEventRightMouseUp then
     [PrintedLine.mouseLocation (os.cgEventGetLocation event).x
        (os.cgEventGetLocation event).y]
   else [])

/-- Interpretation of one OS call on the per-tap enabled state kept by the
framework: `CGEventTapEnable` sets that tap's flag, every other call leaves
the state alone. -/
def applyCall (enabled : Tap → Bool) : OSCall → (Tap → Bool)
  | OSCall.cgEventTapEnable t e => fun u => if u = t then e else enabled u
  | _ => enabled

/-- The per-tap enabled state after a trace of OS calls. -/
def tapEnabledAfter (enabled : Tap → Bool) (calls : List OSCall) : Tap → Bool :=
  calls.foldl applyCall enabled

/-- Oracle on which every framework call fails or returns zero. -/
def osFail : OS where
  cgEventTapCreate := fun _ _ _ _ _ _ => none
  cfMachPortCreateRunLoopSource := fun _ => none
  cfRunLoopGetCurrent := 0
  cfRunLoopRunInMode := fun _ _ _ => 0
  cgEventGetIntegerValueField := fun _ _ => 0
  cgEventCreate := none
  cgEventGetLocation := fun _ => ⟨0, 0⟩

/-- Oracle on which every framework call succeeds with distinctive values. -/
def osOk : OS where
  cgEventTapCreate := fun _ _ _ _ _ _ => some 5
  cfMachPortCreateRunLoopSource := fun _ => some 6
  cfRunLoopGetCurrent := 1
  cfRunLoopRunInMode := fun _ _ _ => 2
  cgEventGetIntegerValueField := fun _ _ => 3
  cgEventCreate := some 7
  cgEventGetLocation := fun _ => ⟨4, 8⟩

/-- Claim C1: for a NULL tap handle, each of `EnableEventTap`,
`AddEventTapToCurrentRunLoop` and `CleanupEventTap` null-checks and is a
complete no-op: its OS-call trace is empty, so no framework call is made and
the framework state is unchanged. -/
theorem nullTap_noop :
    (∀ enable : Bool, EnableEventTap none enable = []) ∧
    (∀ os : OS, AddEventTapToCurrentRunLoop os none = []) ∧
    CleanupEventTap none = [] ∧
    (∀ (enabled : Tap → Bool) (enable : Bool),
      tapEnabledAfter enabled (EnableEventTap none enable) = enabled) :=
  ⟨fun _ => rfl, fun _ => rfl, rfl, fun _ _ => rfl⟩

/-- Claim C2: `InitializeEventTap` returns exactly what `CGEventTapCreate`
returned, so it is NULL precisely when the OS call produced a null tap and is
otherwise the OS tap handle unchanged. -/
theorem initializeEventTap_result (os : OS) (callback : Callback)
    (userData : UserData) :
    (InitializeEventTap os callback userData).1 =
      os.cgEventTapCreate kCGSessionEventTap kCGHeadInsertEventTap
        kCGEventTapOptionDefault eventMask callback userData := by
  unfold InitializeEventTap
  cases os.cgEventTapCreate kCGSessionEventTap kCGHeadInsertEventTap
      kCGEventTapOptionDefault eventMask callback userData <;> rfl

/-- Claim C3: every call of `InitializeEventTap` performs exactly one OS call,
`CGEventTapCreate`, with session level (1), head insertion (0), default
options (0), the mask 4197438 — the bitwise OR of the bits for key down, key
up, left/right mouse down/up, mouse moved and scroll wheel — and the callback
and user data forwarded unchanged. -/
theorem initializeEventTap_request (os : OS) (callback : Callback)
    (userData : UserData) :
    (InitializeEventTap os callback userData).2.1 =
      [OSCall.cgEventTapCreate 1 0 0 4197438 callback userData] ∧
    eventMask = (1 <<< kCGEventKeyDown) ||| (1 <<< kCGEventKeyUp) |||
      (1 <<< kCGEventLeftMouseDown) ||| (1 <<< kCGEventLeftMouseUp) |||
      (1 <<< kCGEventRightMouseDown) ||| (1 <<< kCGEventRightMouseUp) |||
      (1 <<< kCGEventMouseMoved) ||| (1 <<< kCGEventScrollWheel) := by
  have hm : eventMask = 4197438 := by decide
  have h1 : kCGSessionEventTap = 1 := rfl
  have h0 : kCGHeadInsertEventTap = 0 := rfl
  have h0o : kCGEventTapOptionDefault = 0 := rfl
  refine ⟨?_, rfl⟩
  unfold InitializeEventTap
  cases os.cgEventTapCreate kCGSessionEventTap kCGHeadInsertEventTap
      kCGEventTapOptionDefault eventMask callback userData <;>
    simp [h1, h0, h0o, hm]

/-- Claim C4: `GetCurrentMousePos` returns -1 when the point pointer is NULL
or `CGEventCreate` fails, and on success returns 0 having written the event
location through the pointer (releasing the event). -/
theorem getCurrentMousePos_spec (os : OS) :
    GetCurrentMousePos os none = (-1, none, []) ∧
    (∀ p : CGPoint, os.cgEventCreate = none →
      GetCurrentMousePos os (some p) = (-1, some p, [OSCall.cgEventCreate none])) ∧
    (∀ (p : CGPoint) (ev : Event), os.cgEventCreate = some ev →
      GetCurrentMousePos os (some p) =
        (0, some (os.cgEventGetLocation ev),
         [OSCall.cgEventCreate none, OSCall.cgEventGetLocation ev,
          OSCall.cfRelease ev])) := by
  refine ⟨rfl, fun p h => ?_, fun p ev h => ?_⟩ <;> simp [GetCurrentMousePos, h]

/-- Witness for claim C4 at concrete oracles: a failing `CGEventCreate` gives
-1, a succeeding one gives 0 and writes the location (4, 8). -/
theorem getCurrentMousePos_spec_witness :
    (GetCurrentMousePos osFail (some ⟨1, 2⟩)).1 = -1 ∧
    (GetCurrentMousePos osOk (some ⟨1, 2⟩)).1 = 0 ∧
    (GetCurrentMousePos osOk (some ⟨1, 2⟩)).2.1 = some ⟨4, 8⟩ := by
  refine ⟨?_, ?_, ?_⟩
  · have h := (getCurrentMousePos_spec osFail).2.1 ⟨1, 2⟩ rfl
    rw [h]
  · have h := (getCurrentMousePos_spec osOk).2.2 ⟨1, 2⟩ 7 rfl
    rw [h]
  · have h := (getCurrentMousePos_spec osOk).2.2 ⟨1, 2⟩ 7 rfl
    rw [h]
    rfl

/-- Claim C5: for a non-NULL event, `GetKeyCodeFromEvent` returns the
`kCGKeyboardEventKeycode` field (field number 9) reported by the OS, reduced
modulo 2^16, via exactly that one field read. -/
theorem getKeyCodeFromEvent_spec (os : OS) (ev : Event) :
    ((GetKeyCodeFromEvent os (some ev)).1 : Int) =
      os.cgEventGetIntegerValueField ev kCGKeyboardEventKeycode % 2 ^ 16 ∧
    (GetKeyCodeFromEvent os (some ev)).1 < 2 ^ 16 ∧
    (GetKeyCodeFromEvent os (some ev)).2 =
      [OSCall.cgEventGetIntegerValueField ev 9] := by
  have hnn : 0 ≤ os.cgEventGetIntegerValueField ev kCGKeyboardEventKeycode % 2 ^ 16 :=
    Int.emod_nonneg _ (by norm_num)
  have hlt : os.cgEventGetIntegerValueField ev kCGKeyboardEventKeycode % 2 ^ 16 <
      2 ^ 16 := Int.emod_lt_of_pos _ (by norm_num)
  refine ⟨?_, ?_, rfl⟩
  · simp only [GetKeyCodeFromEvent]
    omega
  · simp only [GetKeyCodeFromEvent]
    omega

/-- Claim C6: for a non-NULL tap, `EnableEventTap` performs the single OS call
`CGEventTapEnable` with exactly the given flag, so afterwards the tap is
enabled precisely when the flag is true. -/
theorem enableEventTap_forwards (t : Tap) (enable : Bool) :
    EnableEventTap (some t) enable = [OSCall.cgEventTapEnable t enable] ∧
    (∀ enabled : Tap → Bool,
      tapEnabledAfter enabled (EnableEventTap (some t) enable) t = enable) := by
  refine ⟨rfl, fun enabled => ?_⟩
  simp [tapEnabledAfter, EnableEventTap, applyCall]

/-- Claim C7: `RunCurrentRunLoopWithTimeout` is the single OS call
`CFRunLoopRunInMode` in default mode with the given timeout and
return-after-source-handled set to true, and its result is the OS result
unchanged. -/
theorem runCurrentRunLoop_spec (os : OS) (seconds : CFTimeInterval) :
    (RunCurrentRunLoopWithTimeout os seconds).1 =
      os.cfRunLoopRunInMode CFRunLoopMode.defaultMode seconds true ∧
    (RunCurrentRunLoopWithTimeout os seconds).2 =
      [OSCall.cfRunLoopRunInMode CFRunLoopMode.defaultMode seconds true] :=
  ⟨rfl, rfl⟩

/-- Claim C8: with a NULL event `GetKeyCodeFromEvent` returns 0, and there is
an oracle under which a genuine event also yields 0, so the NULL return is
indistinguishable at the interface from a real key code 0. -/
theorem getKeyCode_null_indistinguishable :
    (∀ os : OS, (GetKeyCodeFromEvent os none).1 = 0) ∧
    (∃ (os : OS) (ev : Event),
      (GetKeyCodeFromEvent os (some ev)).1 = 0) :=
  ⟨fun _ => rfl, ⟨osFail, 0, rfl⟩⟩

/-- Claim C9: `GetCurrentMousePos` only ever returns 0 or -1, and whenever it
does not return 0 the memory behind the point pointer is exactly what it was
before the call; the location is written only on a 0 return. -/
theorem getCurrentMousePos_frame (os : OS) (point : Option CGPoint) :
    ((GetCurrentMousePos os point).1 = 0 ∨ (GetCurrentMousePos os point).1 = -1) ∧
    ((GetCurrentMousePos os point).1 ≠ 0 →
      (GetCurrentMousePos os point).2.1 = point) := by
  cases point with
  | none => exact ⟨Or.inr rfl, fun _ => rfl⟩
  | some p =>
    cases h : os.cgEventCreate with
    | none => refine ⟨Or.inr ?_, fun _ => ?_⟩ <;> simp [GetCurrentMousePos, h]
    | some ev =>
      refine ⟨Or.inl ?_, fun hne => absurd ?_ hne⟩ <;> simp [GetCurrentMousePos, h]

/-- Witness for claim C9 at a concrete oracle: when `CGEventCreate` fails the
memory at the pointer keeps its old value (1, 2). -/
theorem getCurrentMousePos_frame_witness :
    (GetCurrentMousePos osFail (some ⟨1, 2⟩)).2.1 = some ⟨1, 2⟩ :=
  (getCurrentMousePos_frame osFail (some ⟨1, 2⟩)).2 (by decide)

/-- Claim C10: `PrintEventInfo` always prints the numeric event type first; it
prints a key code exactly for key-down (10) and key-up (11) events, a mouse
location exactly for mouse-moved (5) and left/right mouse button down/up
(1-4) events, and for a scroll-wheel event (22) the event type is the only
line printed. -/
theorem printEventInfo_spec (os : OS) (type : Nat) (event : Event) :
    (PrintEventInfo os type event).head? =
      some (PrintedLine.eventType (intOfUInt32 type)) ∧
    ((∃ k, PrintedLine.keyCode k ∈ PrintEventInfo os type event) ↔
      (type = kCGEventKeyDown ∨ type = kCGEventKeyUp)) ∧
    ((∃ x y, PrintedLine.mouseLocation x y ∈ PrintEventInfo os type event) ↔
      (type = kCGEventMouseMoved ∨
       type = kCGEventLeftMouseDown ∨ type = kCGEventLeftMouseUp ∨
       type = kCGEventRightMouseDown ∨ type = kCGEventRightMouseUp)) ∧
    PrintEventInfo os kCGEventScrollWheel event =
      [PrintedLine.eventType (intOfUInt32 kCGEventScrollWheel)] := by
  refine ⟨?_, ?_, ?_, ?_⟩
  · unfold PrintEventInfo
    rfl
  · unfold PrintEventInfo
    split
    next h => simp [h]
    next h =>
      split
      next h2 => simp [h, h2]
      next h2 => simp [h]
  · unfold PrintEventInfo
    split
    next h =>
      simp only [kCGEventKeyDown, kCGEventKeyUp] at h
      simp only [kCGEventMouseMoved, kCGEventLeftMouseDown, kCGEventLeftMouseUp,
        kCGEventRightMouseDown, kCGEventRightMouseUp]
      simp
      omega
    next h =>
      split
      next h2 => simp [h2]
      next h2 => simp [h2]
  · unfold PrintEventInfo
    have hk : ¬(kCGEventScrollWheel = kCGEventKeyDown ∨
        kCGEventScrollWheel = kCGEventKeyUp) := by decide
    have hmv : ¬(kCGEventScrollWheel = kCGEventMouseMoved ∨
        kCGEventScrollWheel = kCGEventLeftMouseDown ∨
        kCGEventScrollWheel = kCGEventLeftMouseUp ∨
        kCGEventScrollWheel = kCGEventRightMouseDown ∨
        kCGEventScrollWheel = kCGEventRightMouseUp) := by decide
    simp [hk, hmv]

end MacosShim
